import Mathlib

/-!
Verification of the automated code-review script
`automation/scripts/review_code.py`.

The script is glue over two external systems: a version-control CLI
(`git`, invoked through `subprocess.check_output`) and a hosted
chat-completion API (`openai.ChatCompletion.create`).  We embed the
script shallowly: each external system is an oracle (a function from
the request the script sends to the result the system returns), the
filesystem is an explicit record, and each Python function becomes a
Lean function over those oracles that additionally returns the trace
of external invocations it performed.  Python exceptions become an
explicit error type threaded through `Except`.
-/

namespace ReviewCode

/-- Result of one `subprocess.check_output` invocation of the
version-control tool: the captured stdout on exit status 0, a
`CalledProcessError` carrying the non-zero exit status otherwise, or an
`OSError` (tool not installed) raised before the process runs. -/
inductive ProcResult where
  | ok (output : String)
  | calledProcessError (returncode : Nat)
  | osError
deriving DecidableEq

/-- Behaviour of the external version-control tool: what each invoked
command line returns. -/
def GitOracle : Type := List String → ProcResult

/-- Failure modes of the remote chat-completion call, grouped as the
design document groups them under RemoteServiceError: an exception
raised by `ChatCompletion.create` itself (network failure, rate
limiting, authentication), or a malformed response whose choice list is
empty, which makes the subscript `response[choices][0]` fail. -/
inductive RemoteFailureKind where
  | transport
  | malformedResponse
deriving DecidableEq

/-- The Python exceptions the script can raise, named as the design
document names them. `calledProcessError` is `subprocess.CalledProcessError`
(ProcessExecutionError), `osError` is the uncaught `OSError` when the
tool is absent, `remoteServiceError` covers every failure of the remote
review call. -/
inductive PyError where
  | calledProcessError (returncode : Nat)
  | osError
  | remoteServiceError (kind : RemoteFailureKind)
deriving DecidableEq

/-- The fixed 40-character identifier of the empty tree in the git
object model, written literally in the source. -/
def emptyTreeHash : String := "4b825dc642cb6eb9a060e54bf8d69288fbee4904"

/-- Command line of the parent-resolution call `git rev-parse HEAD~1`. -/
def revParseCmd : List String := ["git", "rev-parse", "HEAD~1"]

/-- Command line of the two-revision diff call `git diff HEAD~1 HEAD`. -/
def diffHeadCmd : List String := ["git", "diff", "HEAD~1", "HEAD"]

/-- Command line of the empty-tree fallback diff call. -/
def diffEmptyTreeCmd : List String := ["git", "diff", emptyTreeHash, "HEAD"]

/-- Embedding of `get_diff`.  The Python body is one `try` block holding
both the parent-resolution call and the two-revision diff call, with a
single `except subprocess.CalledProcessError` clause that runs the
empty-tree fallback diff; `OSError` is not caught anywhere.  The result
pairs the returned diff (or the uncaught exception) with the list of
command lines invoked, in order. -/
def get_diff (git : GitOracle) : Except PyError String × List (List String) :=
  match git revParseCmd with
  | ProcResult.ok _ =>
    match git diffHeadCmd with
    | ProcResult.ok d => (Except.ok d, [revParseCmd, diffHeadCmd])
    | ProcResult.calledProcessError _ =>
      match git diffEmptyTreeCmd with
      | ProcResult.ok d => (Except.ok d, [revParseCmd, diffHeadCmd, diffEmptyTreeCmd])
      | ProcResult.calledProcessError c =>
        (Except.error (PyError.calledProcessError c), [revParseCmd, diffHeadCmd, diffEmptyTreeCmd])
      | ProcResult.osError =>
        (Except.error PyError.osError, [revParseCmd, diffHeadCmd, diffEmptyTreeCmd])
    | ProcResult.osError => (Except.error PyError.osError, [revParseCmd, diffHeadCmd])
  | ProcResult.calledProcessError _ =>
    match git diffEmptyTreeCmd with
    | ProcResult.ok d => (Except.ok d, [revParseCmd, diffEmptyTreeCmd])
    | ProcResult.calledProcessError c =>
      (Except.error (PyError.calledProcessError c), [revParseCmd, diffEmptyTreeCmd])
    | ProcResult.osError => (Except.error PyError.osError, [revParseCmd, diffEmptyTreeCmd])
  | ProcResult.osError => (Except.error PyError.osError, [revParseCmd])

/-- One message of the chat-completion request. -/
structure Message where
  role : String
  content : String
deriving DecidableEq

/-- The chat-completion request `ChatCompletion.create` is called with. -/
structure ChatRequest where
  model : String
  messages : List Message
deriving DecidableEq

/-- What the remote chat-completion endpoint returns for a request:
either a response carrying the text content of each choice, or an
exception raised by the client call. -/
inductive ApiOutcome where
  | success (choices : List String)
  | failure
deriving DecidableEq

/-- Behaviour of the remote chat-completion endpoint. -/
def ChatApi : Type := ChatRequest → ApiOutcome

/-- Text of the f-string prompt template before the interpolated diff. -/
def promptHead : String :=
  "\nYou are an expert code reviewer. Please review the following code diff and provide a detailed review covering:\n- Positive aspects\n- Areas for improvement\n- Potential bugs or issues\n\nCode Diff:\n"

/-- Text of the f-string prompt template after the interpolated diff. -/
def promptTail : String := "\n\nPlease output your review in Markdown format.\n"

/-- Embedding of the f-string `prompt` built inside `review_code`: the
template text with the diff interpolated verbatim between head and
tail. -/
def build_prompt (diff : String) : String := promptHead ++ diff ++ promptTail

/-- The chat-completion request `review_code` sends: model `gpt-4`, one
system message and one user message holding the built prompt. -/
def mkRequest (diff : String) : ChatRequest :=
  { model := "gpt-4",
    messages := [ { role := "system", content := "You are an expert code reviewer." },
                  { role := "user", content := build_prompt diff } ] }

/-- Embedding of `review_code`.  Sends the request; on success extracts
`response[choices][0][message][content]`, which raises on an empty
choice list; an exception from the call itself propagates.  The result
pairs the review text (or the exception) with the list of requests
sent. -/
def review_code (api : ChatApi) (diff : String) : Except PyError String × List ChatRequest :=
  match api (mkRequest diff) with
  | ApiOutcome.success [] =>
    (Except.error (PyError.remoteServiceError RemoteFailureKind.malformedResponse), [mkRequest diff])
  | ApiOutcome.success (c :: _) => (Except.ok c, [mkRequest diff])
  | ApiOutcome.failure =>
    (Except.error (PyError.remoteServiceError RemoteFailureKind.transport), [mkRequest diff])

/-- The filesystem as the script observes it: the set of existing
directories and the text content of each existing file, keyed by path.
File content is the decoded text; the script reads and writes text with
encoding utf-8, which represents every Unicode string, so the decoded
text determines the bytes and conversely. -/
structure FS where
  dirs : List String
  files : String → Option String

/-- Directory created by `os.makedirs` in `save_review`. -/
def docsDir : String := "docs"

/-- The fixed relative output path of the report. -/
def reportPath : String := "docs/review_report.md"

/-- Embedding of `save_review`: `os.makedirs` with exist-ok creates the
directory when absent and is a no-op when present, then the file at the
fixed path is opened in mode `w` (truncating overwrite) and the review
text is written. -/
def save_review (fs : FS) (review : String) : FS :=
  let fs1 : FS := { fs with dirs := if docsDir ∈ fs.dirs then fs.dirs else docsDir :: fs.dirs }
  { fs1 with files := fun p => if p = reportPath then some review else fs1.files p }

/-- Python truthiness of the value `os.getenv` returns: `None` when the
variable is unset and the empty string are falsy, every other string is
truthy. -/
def truthy : Option String → Bool
  | none => false
  | some s => !s.isEmpty

/-- How a run of `main` ends: normal completion (exit status 0), an
explicit `sys.exit` with the given status, or an uncaught exception
terminating the interpreter. -/
inductive Outcome where
  | exitSuccess
  | exitFailure (code : Nat)
  | raised (e : PyError)
deriving DecidableEq

/-- The process environment and the external systems a run interacts
with, plus the filesystem state the run starts from. -/
structure World where
  env : String → Option String
  git : GitOracle
  api : ChatApi
  fs : FS

/-- Everything observable about one run of `main`: how it ended, the
final filesystem, and the external invocations performed. -/
structure RunResult where
  outcome : Outcome
  fs : FS
  gitCalls : List (List String)
  apiCalls : List ChatRequest

/-- Embedding of `main`: check the credential variable for truthiness
and exit with status 1 when it is unset or empty; otherwise run
`get_diff`, `review_code`, `save_review` in sequence, each output the
sole input of the next, any exception propagating uncaught. -/
def main (w : World) : RunResult :=
  if truthy (w.env "OPENAI_API_KEY") then
    match get_diff w.git with
    | (Except.error e, gcalls) =>
      { outcome := Outcome.raised e, fs := w.fs, gitCalls := gcalls, apiCalls := [] }
    | (Except.ok diff, gcalls) =>
      match review_code w.api diff with
      | (Except.error e, acalls) =>
        { outcome := Outcome.raised e, fs := w.fs, gitCalls := gcalls, apiCalls := acalls }
      | (Except.ok review, acalls) =>
        { outcome := Outcome.exitSuccess, fs := save_review w.fs review,
          gitCalls := gcalls, apiCalls := acalls }
  else
    { outcome := Outcome.exitFailure 1, fs := w.fs, gitCalls := [], apiCalls := [] }

/-- Model of the external git tool running in a consistent repository
whose HEAD has the given number of commits in its history: parent
resolution and the two-revision diff succeed exactly when at least two
commits exist (git exits 128 otherwise), and the empty-tree diff of
HEAD always succeeds.  The three string fields are whatever text the
tool would print for each successful invocation. -/
structure Repo where
  commits : Nat
  parentSha : String
  diffParentHead : String
  diffEmptyHead : String

/-- The git oracle a repository presents to the script. -/
def Repo.git (r : Repo) : GitOracle := fun cmd =>
  if cmd = revParseCmd then
    if 2 ≤ r.commits then ProcResult.ok (r.parentSha ++ "\n")
    else ProcResult.calledProcessError 128
  else if cmd = diffHeadCmd then
    if 2 ≤ r.commits then ProcResult.ok r.diffParentHead
    else ProcResult.calledProcessError 128
  else if cmd = diffEmptyTreeCmd then ProcResult.ok r.diffEmptyHead
  else ProcResult.calledProcessError 1

/-! Helper lemmas shared by the claim theorems. -/

/-- A run in which the credential is truthy, diff extraction succeeds
and the remote call answers with a non-empty choice list completes
normally, writes the first choice, and sent exactly one request. -/
theorem main_run_success (w : World) (d c : String) (r : List String)
    (t : List (List String))
    (henv : truthy (w.env "OPENAI_API_KEY") = true)
    (hg : get_diff w.git = (Except.ok d, t))
    (ha : w.api (mkRequest d) = ApiOutcome.success (c :: r)) :
    main w = { outcome := Outcome.exitSuccess, fs := save_review w.fs c,
               gitCalls := t, apiCalls := [mkRequest d] } := by
  unfold main
  rw [henv, if_pos rfl, hg]
  simp only [review_code, ha]

/-- A run in which the credential is truthy, diff extraction succeeds
and the remote call fails (by exception or by an empty choice list)
ends raised with that error and leaves the filesystem untouched. -/
theorem main_run_review_failed (w : World) (d : String)
    (t : List (List String)) (e : PyError)
    (henv : truthy (w.env "OPENAI_API_KEY") = true)
    (hg : get_diff w.git = (Except.ok d, t))
    (ha : (review_code w.api d).1 = Except.error e) :
    main w = { outcome := Outcome.raised e, fs := w.fs,
               gitCalls := t, apiCalls := (review_code w.api d).2 } := by
  unfold main
  rw [henv, if_pos rfl, hg]
  simp only []
  rcases hrc : review_code w.api d with ⟨res, calls⟩
  rw [hrc] at ha
  simp only at ha
  subst ha
  rfl

/-! Concrete environments, repositories and oracles used by the
witness theorems. -/

/-- A process environment holding a non-empty credential. -/
def envOk : String → Option String := fun k =>
  if k = "OPENAI_API_KEY" then some "sk-test-key" else none

/-- A process environment with no credential at all. -/
def envMissing : String → Option String := fun _ => none

/-- A repository whose HEAD has two commits. -/
def repoTwo : Repo :=
  { commits := 2, parentSha := "a1b2c3", diffParentHead := "added line X",
    diffEmptyHead := "whole tree as additions" }

/-- A repository whose HEAD is the first commit. -/
def repoOne : Repo :=
  { commits := 1, parentSha := "a1b2c3", diffParentHead := "unused",
    diffEmptyHead := "first commit as additions" }

/-- An empty starting filesystem. -/
def emptyFS : FS := { dirs := [], files := fun _ => none }

/-- A remote endpoint answering every request with one choice. -/
def apiFirst : ChatApi := fun _ => ApiOutcome.success ["## Review\n- Good: run one"]

/-- A remote endpoint answering every request with two choices. -/
def apiSecond : ChatApi :=
  fun _ => ApiOutcome.success ["## Review\n- Good: run two", "ignored extra choice"]

/-- A remote endpoint answering every request with an empty choice list. -/
def apiEmptyChoices : ChatApi := fun _ => ApiOutcome.success []

/-- World of the first witness run. -/
def wRunOne : World := { env := envOk, git := repoTwo.git, api := apiFirst, fs := emptyFS }

/-- World of the second witness run. -/
def wRunTwo : World := { env := envOk, git := repoTwo.git, api := apiSecond, fs := emptyFS }

/-! The claim theorems. -/

/-- C1: on a successful run the output file content equals exactly the
text of the first returned choice, and a second successful run starting
from the filesystem the first run left behind fully overwrites the file
with the second review. -/
theorem output_equals_first_choice_and_second_run_overwrites
    (w1 w2 : World) (d1 d2 c1 c2 : String) (r1 r2 : List String)
    (t1 t2 : List (List String))
    (henv1 : truthy (w1.env "OPENAI_API_KEY") = true)
    (henv2 : truthy (w2.env "OPENAI_API_KEY") = true)
    (hg1 : get_diff w1.git = (Except.ok d1, t1))
    (hg2 : get_diff w2.git = (Except.ok d2, t2))
    (ha1 : w1.api (mkRequest d1) = ApiOutcome.success (c1 :: r1))
    (ha2 : w2.api (mkRequest d2) = ApiOutcome.success (c2 :: r2)) :
    (main w1).outcome = Outcome.exitSuccess ∧
    (main w1).fs.files reportPath = some c1 ∧
    (main { w2 with fs := (main w1).fs }).outcome = Outcome.exitSuccess ∧
    (main { w2 with fs := (main w1).fs }).fs.files reportPath = some c2 := by
  have h1 := main_run_success w1 d1 c1 r1 t1 henv1 hg1 ha1
  have h2 := main_run_success { w2 with fs := (main w1).fs } d2 c2 r2 t2 henv2 hg2 ha2
  refine ⟨by rw [h1], ?_, by rw [h2], ?_⟩
  · rw [h1]; simp [save_review]
  · rw [h2]; simp [save_review]

/-- Witness for C1 at two concrete runs. -/
theorem output_equals_first_choice_and_second_run_overwrites_witness :
    (main wRunOne).outcome = Outcome.exitSuccess ∧
    (main wRunOne).fs.files reportPath = some "## Review\n- Good: run one" ∧
    (main { wRunTwo with fs := (main wRunOne).fs }).outcome = Outcome.exitSuccess ∧
    (main { wRunTwo with fs := (main wRunOne).fs }).fs.files reportPath =
      some "## Review\n- Good: run two" :=
  output_equals_first_choice_and_second_run_overwrites
    wRunOne wRunTwo "added line X" "added line X"
    "## Review\n- Good: run one" "## Review\n- Good: run two"
    [] ["ignored extra choice"]
    [revParseCmd, diffHeadCmd] [revParseCmd, diffHeadCmd]
    (by decide) (by decide) rfl rfl rfl rfl

/-- C2: when the credential variable is unset or empty, the run exits
with status 1 having invoked no version-control command, sent no
request, and changed no file. -/
theorem missing_credential_exits_one_without_side_effects (w : World)
    (h : w.env "OPENAI_API_KEY" = none ∨ w.env "OPENAI_API_KEY" = some "") :
    (main w).outcome = Outcome.exitFailure 1 ∧
    (main w).fs = w.fs ∧
    (main w).gitCalls = [] ∧
    (main w).apiCalls = [] := by
  have hfalse : truthy (w.env "OPENAI_API_KEY") = false := by
    rcases h with h | h <;> rw [h] <;> rfl
  unfold main
  rw [hfalse]
  exact ⟨rfl, rfl, rfl, rfl⟩

/-- Witness for C2 at a concrete world with no credential set. -/
theorem missing_credential_exits_one_without_side_effects_witness :
    (main { env := envMissing, git := repoTwo.git, api := apiFirst, fs := emptyFS }).outcome =
      Outcome.exitFailure 1 ∧
    (main { env := envMissing, git := repoTwo.git, api := apiFirst, fs := emptyFS }).fs = emptyFS ∧
    (main { env := envMissing, git := repoTwo.git, api := apiFirst, fs := emptyFS }).gitCalls = [] ∧
    (main { env := envMissing, git := repoTwo.git, api := apiFirst, fs := emptyFS }).apiCalls = [] :=
  missing_credential_exits_one_without_side_effects
    { env := envMissing, git := repoTwo.git, api := apiFirst, fs := emptyFS } (Or.inl rfl)

/-- C3: in every repository whose HEAD has at least two commits, diff
extraction returns the two-revision diff and the invocation trace never
holds the empty-tree fallback command. -/
theorem two_commit_repo_uses_two_revision_diff (r : Repo) (h : 2 ≤ r.commits) :
    get_diff r.git = (Except.ok r.diffParentHead, [revParseCmd, diffHeadCmd]) ∧
    diffEmptyTreeCmd ∉ [revParseCmd, diffHeadCmd] := by
  constructor
  · have h1 : r.git revParseCmd = ProcResult.ok (r.parentSha ++ "\n") := by
      unfold Repo.git; rw [if_pos rfl, if_pos h]
    have h2 : r.git diffHeadCmd = ProcResult.ok r.diffParentHead := by
      unfold Repo.git; rw [if_neg (by decide), if_pos rfl, if_pos h]
    unfold get_diff
    rw [h1, h2]
  · decide

/-- Witness for C3 at a concrete two-commit repository. -/
theorem two_commit_repo_uses_two_revision_diff_witness :
    get_diff repoTwo.git = (Except.ok "added line X", [revParseCmd, diffHeadCmd]) ∧
    diffEmptyTreeCmd ∉ [revParseCmd, diffHeadCmd] :=
  two_commit_repo_uses_two_revision_diff repoTwo (by decide)

/-- C4: in a repository whose HEAD is the first commit, diff extraction
falls back to diffing the fixed 40-character empty-tree identifier
against HEAD and succeeds. -/
theorem single_commit_repo_uses_empty_tree_fallback (r : Repo) (h : r.commits = 1) :
    get_diff r.git = (Except.ok r.diffEmptyHead, [revParseCmd, diffEmptyTreeCmd]) ∧
    diffEmptyTreeCmd = ["git", "diff", emptyTreeHash, "HEAD"] ∧
    emptyTreeHash = "4b825dc642cb6eb9a060e54bf8d69288fbee4904" ∧
    emptyTreeHash.length = 40 := by
  refine ⟨?_, rfl, rfl, by decide⟩
  have h1 : r.git revParseCmd = ProcResult.calledProcessError 128 := by
    unfold Repo.git; rw [if_pos rfl, if_neg (by omega)]
  have h3 : r.git diffEmptyTreeCmd = ProcResult.ok r.diffEmptyHead := by
    unfold Repo.git; rw [if_neg (by decide), if_neg (by decide), if_pos rfl]
  unfold get_diff
  rw [h1, h3]

/-- Witness for C4 at a concrete single-commit repository. -/
theorem single_commit_repo_uses_empty_tree_fallback_witness :
    get_diff repoOne.git =
      (Except.ok "first commit as additions", [revParseCmd, diffEmptyTreeCmd]) ∧
    diffEmptyTreeCmd = ["git", "diff", emptyTreeHash, "HEAD"] ∧
    emptyTreeHash = "4b825dc642cb6eb9a060e54bf8d69288fbee4904" ∧
    emptyTreeHash.length = 40 :=
  single_commit_repo_uses_empty_tree_fallback repoOne rfl

/-- Oracle of the C5 counterexample: parent resolution succeeds, the
two-revision diff itself exits 1, the fallback diff succeeds. -/
def gitDiffFails : GitOracle := fun cmd =>
  if cmd = revParseCmd then ProcResult.ok "a1b2c3\n"
  else if cmd = diffHeadCmd then ProcResult.calledProcessError 1
  else if cmd = diffEmptyTreeCmd then ProcResult.ok "fallback diff text"
  else ProcResult.calledProcessError 1

/-- C5 counterexample: with parent resolution succeeding and the
two-revision diff invocation exiting non-zero, diff extraction does not
fail with a ProcessExecutionError — the single except clause spans both
calls of the try block, so it catches this failure too and answers from
the fallback. -/
theorem nonzero_two_revision_diff_does_not_fail_extraction :
    gitDiffFails revParseCmd = ProcResult.ok "a1b2c3\n" ∧
    gitDiffFails diffHeadCmd = ProcResult.calledProcessError 1 ∧
    (get_diff gitDiffFails).1 = Except.ok "fallback diff text" ∧
    ¬ ∃ c, (get_diff gitDiffFails).1 = Except.error (PyError.calledProcessError c) := by
  refine ⟨rfl, by decide, rfl, ?_⟩
  rintro ⟨c, hc⟩
  have hok : (get_diff gitDiffFails).1 = Except.ok "fallback diff text" := rfl
  rw [hok] at hc
  simp at hc

/-- C5 amended: diff extraction raises a ProcessExecutionError with
status c exactly when some invocation of the try block — parent
resolution, or the two-revision diff after parent resolution succeeded
— raised a CalledProcessError and the empty-tree fallback diff then
itself exited with status c. -/
theorem get_diff_error_characterization (g : GitOracle) (c : Nat) :
    (get_diff g).1 = Except.error (PyError.calledProcessError c) ↔
      (((∃ k, g revParseCmd = ProcResult.calledProcessError k) ∨
        ((∃ o, g revParseCmd = ProcResult.ok o) ∧
         ∃ k, g diffHeadCmd = ProcResult.calledProcessError k)) ∧
       g diffEmptyTreeCmd = ProcResult.calledProcessError c) := by
  rcases hr : g revParseCmd with o | k | _ <;>
    rcases hd : g diffHeadCmd with o2 | k2 | _ <;>
      rcases he : g diffEmptyTreeCmd with o3 | k3 | _ <;>
        simp [get_diff, hr, hd, he]

/-- Oracle of the C5 witness: parent resolution exits 128 and the
fallback diff exits 7. -/
def gitRevParseAndFallbackFail : GitOracle := fun cmd =>
  if cmd = revParseCmd then ProcResult.calledProcessError 128
  else if cmd = diffEmptyTreeCmd then ProcResult.calledProcessError 7
  else ProcResult.calledProcessError 1

/-- Witness for the amended C5 at a concrete oracle. -/
theorem get_diff_error_characterization_witness :
    (get_diff gitRevParseAndFallbackFail).1 =
      Except.error (PyError.calledProcessError 7) :=
  (get_diff_error_characterization gitRevParseAndFallbackFail 7).mpr
    ⟨Or.inl ⟨128, by decide⟩, by decide⟩

/-- C6: the review requester sends exactly one request, addressed to
model gpt-4, holding exactly a system message that identifies the
assistant as an expert code reviewer and a user message holding the
built prompt, and the built prompt holds the diff verbatim as a
contiguous substring. -/
theorem request_shape_and_prompt_contains_diff (api : ChatApi) (d : String) :
    (review_code api d).2 = [mkRequest d] ∧
    (mkRequest d).model = "gpt-4" ∧
    (mkRequest d).messages =
      [{ role := "system", content := "You are an expert code reviewer." },
       { role := "user", content := build_prompt d }] ∧
    ∃ pre post, build_prompt d = pre ++ d ++ post := by
  refine ⟨?_, rfl, rfl, promptHead, promptTail, rfl⟩
  unfold review_code
  rcases api (mkRequest d) with cs | _
  · rcases cs with _ | ⟨c, rest⟩ <;> rfl
  · rfl

/-- Witness for C6 at a concrete endpoint and diff. -/
theorem request_shape_and_prompt_contains_diff_witness :
    (review_code apiFirst "added line X").2 = [mkRequest "added line X"] ∧
    (mkRequest "added line X").model = "gpt-4" ∧
    (mkRequest "added line X").messages =
      [{ role := "system", content := "You are an expert code reviewer." },
       { role := "user", content := build_prompt "added line X" }] ∧
    ∃ pre post, build_prompt "added line X" = pre ++ "added line X" ++ post :=
  request_shape_and_prompt_contains_diff apiFirst "added line X"

/-- C7: a response with an empty choice list makes the review requester
raise a RemoteServiceError after exactly one request, and the error
propagates out of the run with no retry. -/
theorem empty_choices_raise_remote_service_error (w : World) (d : String)
    (t : List (List String))
    (henv : truthy (w.env "OPENAI_API_KEY") = true)
    (hg : get_diff w.git = (Except.ok d, t))
    (ha : w.api (mkRequest d) = ApiOutcome.success []) :
    review_code w.api d =
      (Except.error (PyError.remoteServiceError RemoteFailureKind.malformedResponse),
       [mkRequest d]) ∧
    (main w).outcome =
      Outcome.raised (PyError.remoteServiceError RemoteFailureKind.malformedResponse) ∧
    (main w).apiCalls = [mkRequest d] := by
  have hrc : review_code w.api d =
      (Except.error (PyError.remoteServiceError RemoteFailureKind.malformedResponse),
       [mkRequest d]) := by
    unfold review_code; rw [ha]
  have hm := main_run_review_failed w d t
    (PyError.remoteServiceError RemoteFailureKind.malformedResponse) henv hg
    (by rw [hrc])
  refine ⟨hrc, by rw [hm], ?_⟩
  rw [hm]
  simp only [hrc]

/-- World of the C7 witness: the endpoint answers with no choices. -/
def wEmptyChoices : World :=
  { env := envOk, git := repoTwo.git, api := apiEmptyChoices, fs := emptyFS }

/-- Witness for C7 at a concrete world. -/
theorem empty_choices_raise_remote_service_error_witness :
    review_code wEmptyChoices.api "added line X" =
      (Except.error (PyError.remoteServiceError RemoteFailureKind.malformedResponse),
       [mkRequest "added line X"]) ∧
    (main wEmptyChoices).outcome =
      Outcome.raised (PyError.remoteServiceError RemoteFailureKind.malformedResponse) ∧
    (main wEmptyChoices).apiCalls = [mkRequest "added line X"] :=
  empty_choices_raise_remote_service_error wEmptyChoices "added line X"
    [revParseCmd, diffHeadCmd] (by decide) rfl rfl

/-- C8: a failure raised by the remote review call — after diff
extraction, before the file write — leaves the whole filesystem, and in
particular the report file, exactly as it was. -/
theorem review_failure_leaves_report_file_unchanged (w : World) (d : String)
    (t : List (List String)) (e : PyError)
    (henv : truthy (w.env "OPENAI_API_KEY") = true)
    (hg : get_diff w.git = (Except.ok d, t))
    (ha : (review_code w.api d).1 = Except.error e) :
    (main w).fs = w.fs ∧
    (main w).fs.files reportPath = w.fs.files reportPath ∧
    (main w).outcome = Outcome.raised e := by
  have hm := main_run_review_failed w d t e henv hg ha
  rw [hm]
  exact ⟨rfl, rfl, rfl⟩

/-- World of the C8 witness: the remote call itself raises. -/
def wApiDown : World :=
  { env := envOk, git := repoTwo.git, api := fun _ => ApiOutcome.failure, fs := emptyFS }

/-- Witness for C8 at a concrete world whose remote call fails. -/
theorem review_failure_leaves_report_file_unchanged_witness :
    (main wApiDown).fs = wApiDown.fs ∧
    (main wApiDown).fs.files reportPath = wApiDown.fs.files reportPath ∧
    (main wApiDown).outcome =
      Outcome.raised (PyError.remoteServiceError RemoteFailureKind.transport) :=
  review_failure_leaves_report_file_unchanged wApiDown "added line X"
    [revParseCmd, diffHeadCmd] (PyError.remoteServiceError RemoteFailureKind.transport)
    (by decide) rfl rfl

/-- C9: the report writer ensures the docs directory exists (creating
it when absent, a no-op when present), stores exactly the review text —
any Unicode string round-trips unchanged through the utf-8 text file —
at the fixed relative path, and touches no other file. -/
theorem save_review_creates_dir_and_writes_exact (fs : FS) (review : String) :
    docsDir ∈ (save_review fs review).dirs ∧
    (docsDir ∈ fs.dirs → (save_review fs review).dirs = fs.dirs) ∧
    (save_review fs review).files reportPath = some review ∧
    ∀ p, p ≠ reportPath → (save_review fs review).files p = fs.files p := by
  refine ⟨?_, ?_, ?_, ?_⟩
  · by_cases h : docsDir ∈ fs.dirs <;> simp [save_review, h]
  · intro h; simp [save_review, h]
  · simp [save_review]
  · intro p hp; simp [save_review, hp]

/-- Witness for C9 at a concrete filesystem and a non-ASCII review. -/
theorem save_review_creates_dir_and_writes_exact_witness :
    docsDir ∈ (save_review emptyFS "総評: 良い変更です ✅ café").dirs ∧
    (save_review emptyFS "総評: 良い変更です ✅ café").files reportPath =
      some "総評: 良い変更です ✅ café" ∧
    (save_review emptyFS "総評: 良い変更です ✅ café").files "docs/other.md" =
      emptyFS.files "docs/other.md" :=
  ⟨(save_review_creates_dir_and_writes_exact emptyFS "総評: 良い変更です ✅ café").1,
   (save_review_creates_dir_and_writes_exact emptyFS "総評: 良い変更です ✅ café").2.2.1,
   (save_review_creates_dir_and_writes_exact emptyFS "総評: 良い変更です ✅ café").2.2.2
     "docs/other.md" (by decide)⟩

/-- C10: when parent resolution fails and the empty-tree fallback diff
then exits non-zero, that CalledProcessError propagates out of diff
extraction unhandled, after exactly the two invocations. -/
theorem fallback_failure_propagates_unhandled (g : GitOracle) (k c : Nat)
    (hr : g revParseCmd = ProcResult.calledProcessError k)
    (hf : g diffEmptyTreeCmd = ProcResult.calledProcessError c) :
    get_diff g =
      (Except.error (PyError.calledProcessError c), [revParseCmd, diffEmptyTreeCmd]) := by
  unfold get_diff
  rw [hr, hf]

/-- Oracle of the C10 witness: parent resolution exits 128, the
fallback diff exits 9. -/
def gitOnlyFallbackFails : GitOracle := fun cmd =>
  if cmd = revParseCmd then ProcResult.calledProcessError 128
  else if cmd = diffEmptyTreeCmd then ProcResult.calledProcessError 9
  else ProcResult.ok "unused"

/-- Witness for C10 at a concrete oracle. -/
theorem fallback_failure_propagates_unhandled_witness :
    get_diff gitOnlyFallbackFails =
      (Except.error (PyError.calledProcessError 9), [revParseCmd, diffEmptyTreeCmd]) :=
  fallback_failure_propagates_unhandled gitOnlyFallbackFails 128 9 (by decide) (by decide)

end ReviewCode
